import Mathlib

/-
Verification of the keyword-scraper service: a shallow embedding of the
scraper module (browser pool, HTML keyword extraction, consent handling,
URL-processing pipeline) and of the server's concurrency-limited request
handling, with theorems checking the specified properties.

Strings from the JavaScript source are modelled as `List Char`; the
single-threaded event loop is modelled by atomic step functions over
explicit state records; browser-side effects are supplied by an oracle
record so that every exit path of the pipeline can be analysed.
-/

namespace KeywordScraper

/-! ## String primitives (JavaScript semantics) -/

/-- Whitespace removed by JavaScript `String.prototype.trim`:
space, tab, LF, CR, VT, FF, NBSP, BOM (by code point). -/
def isJsSpace (c : Char) : Bool :=
  c.toNat = 32 || c.toNat = 9 || c.toNat = 10 || c.toNat = 13 ||
  c.toNat = 11 || c.toNat = 12 || c.toNat = 160 || c.toNat = 65279

/-- JavaScript `s.trim()`: strip leading and trailing whitespace. -/
def jsTrim (s : List Char) : List Char :=
  ((s.dropWhile isJsSpace).reverse.dropWhile isJsSpace).reverse

/-- JavaScript `hay.indexOf(needle)`: index of the first occurrence of
`needle` in `hay`, or `none` where JavaScript returns `-1`. -/
def idxOf? (needle : List Char) : List Char → Option Nat
  | [] => if needle = [] then some 0 else none
  | c :: rest =>
    if needle.isPrefixOf (c :: rest) then some 0
    else (idxOf? needle rest).map (fun i => i + 1)

/-- JavaScript `hay.includes(needle)`. -/
def jsIncludes (needle hay : List Char) : Bool :=
  (idxOf? needle hay).isSome

/-- `needle` occurs in `s` starting at index `i`. -/
def isMatchAt (needle s : List Char) (i : Nat) : Bool :=
  needle.isPrefixOf (s.drop i)

/-! ## extractKeywordsFromHtml (scraper, Strategy A) -/

/-- The ordered delimiter-pair list of `extractKeywordsFromHtml`. -/
def delimiters : List (List Char × List Char) :=
  [ (("&quot;terms&quot;:&quot;").toList, ("&quot;,").toList),
    (("\"terms\":\"").toList, ("\",").toList),
    (("terms=").toList, ("&").toList),
    (("\"keyWords\":\"").toList, ("\",").toList),
    (("\"keywords\":\"").toList, ("\",").toList) ]

/-- One delimiter-pair attempt of `extractKeywordsFromHtml`: find the first
occurrence of the start delimiter, then the first occurrence of the end
delimiter after it, trim the text in between, and succeed only when the
trimmed text is non-empty. -/
def matchPair (p : List Char × List Char) (s : List Char) : Option (List Char) :=
  if jsIncludes p.1 s then
    match idxOf? p.1 s with
    | none => none
    | some startIndex =>
      let afterStart := s.drop (startIndex + p.1.length)
      match idxOf? p.2 afterStart with
      | none => none
      | some endIndex =>
        let keywords := jsTrim (afterStart.take endIndex)
        if keywords = [] then none else some keywords
  else none

/-- First delimiter pair in the priority list that yields a match wins;
no match at all yields the empty string. -/
def firstHit : List (List Char × List Char) → List Char → List Char
  | [], _ => []
  | p :: ps, s =>
    match matchPair p s with
    | some k => k
    | none => firstHit ps s

/-- `extractKeywordsFromHtml(htmlContent)` from the scraper module. -/
def extractKeywordsFromHtml (s : List Char) : List Char :=
  if s = [] then [] else firstHit delimiters s

/-- The computation a delimiter pair performs on the text that follows the
first occurrence of its start delimiter: cut at the first occurrence of the
end delimiter, trim, require non-empty. -/
def firstSeg (endDelim mid : List Char) : Option (List Char) :=
  match idxOf? endDelim mid with
  | none => none
  | some j =>
    let keywords := jsTrim (mid.take j)
    if keywords = [] then none else some keywords

/-! ## Browser pool (scraper: getBrowser / returnBrowser) -/

/-- A pooled browser session; `alive` is what its health check
(`browser.version()`) would report. -/
structure Browser where
  alive : Bool
deriving DecidableEq, Repr

/-- The pool's process-wide state: the idle free-list `browserPool` and the
live-session counter `activeBrowsers`. -/
structure PoolState where
  browserPool : List Browser
  activeBrowsers : Nat
deriving DecidableEq, Repr

def MAX_BROWSERS : Nat := 3

/-- JavaScript `Array.prototype.pop`: remove and return the last element. -/
def popLast : List Browser → Option (Browser × List Browser)
  | [] => none
  | [b] => some (b, [])
  | b :: rest => (popLast rest).map (fun r => (r.1, b :: r.2))

inductive AcqResult
  | reusedLive
  | createdNew
  | mustWait
deriving DecidableEq, Repr

/-- One attempt of `getBrowser`: pop a pooled browser and health-check it
(a dead one is discarded and control falls through), then create a new
browser when under `MAX_BROWSERS`, else signal that the caller must wait
and retry. -/
def getBrowserStep (st : PoolState) : PoolState × AcqResult :=
  match popLast st.browserPool with
  | some (b, rest) =>
    if b.alive then ({ st with browserPool := rest }, AcqResult.reusedLive)
    else if st.activeBrowsers < MAX_BROWSERS then
      ({ browserPool := rest, activeBrowsers := st.activeBrowsers + 1 }, AcqResult.createdNew)
    else ({ st with browserPool := rest }, AcqResult.mustWait)
  | none =>
    if st.activeBrowsers < MAX_BROWSERS then
      ({ st with browserPool := st.browserPool, activeBrowsers := st.activeBrowsers + 1 },
        AcqResult.createdNew)
    else (st, AcqResult.mustWait)

/-- `returnBrowser(browser)`: push back onto the free-list when it is below
`MAX_BROWSERS`, otherwise close the browser and decrement the counter. -/
def returnBrowser (st : PoolState) (b : Option Browser) : PoolState :=
  match b with
  | some _ =>
    if st.browserPool.length < MAX_BROWSERS then
      { st with browserPool := st.browserPool ++ [Option.getD b (Browser.mk true)] }
    else { st with activeBrowsers := st.activeBrowsers - 1 }
  | none => st

/-- The wait-and-retry tail of `getBrowser`: at each attempt `t` the pool is
polled; on failure the caller sleeps 1000 ms and retries.  Returns the
attempt index at which acquisition succeeded together with the list of
sleep durations performed before it, or `none` when the fuel runs out with
no successful attempt. -/
def getBrowserLoop (avail : Nat → Bool) : Nat → Nat → Option (Nat × List Nat)
  | 0, _ => none
  | fuel + 1, t =>
    if avail t then some (t, [])
    else (getBrowserLoop avail fuel (t + 1)).map (fun r => (r.1, 1000 :: r.2))

/-! ## Pipeline (scraper: acceptCookies / processUrl) -/

/-- Outcome of one element query inside `acceptCookies`: an element was
found, no element matched, or the query threw (for instance an invalid
XPath expression) and the loop continues. -/
inductive QRes
  | found
  | notFound
  | err
deriving DecidableEq, Repr

/-- Whether a selector scan finds some element before exhausting the list
(queries that throw are skipped by the per-selector try/catch). -/
def firstFound : List QRes → Bool
  | [] => false
  | QRes.found :: _ => true
  | QRes.notFound :: rest => firstFound rest
  | QRes.err :: rest => firstFound rest

/-- Observable actions of one `processUrl` run, recorded in order. -/
inductive Action
  | goto
  | extractHtml
  | extractSurface
  | consentScan
  | click
  | pageClose
  | releaseBrowser
deriving DecidableEq, Repr

/-- `acceptCookies(page)`: scan the XPath-style selector loop, then the
CSS-filtered loop; the first found element is clicked (followed by a 500 ms
wait) and the function returns `true`; otherwise `false` with no click. -/
def acceptCookies (xpathQueries cssQueries : List QRes) : Bool × List Action :=
  if firstFound xpathQueries then (true, [Action.click])
  else if firstFound cssQueries then (true, [Action.click])
  else (false, [])

/-- The result record built by `processUrl`. -/
structure ExtractionResult where
  scraped_keywords : List Char
  surface_keywords : List Char
  success : Bool
  error : List Char
  processing_time_ms : Int
deriving DecidableEq, Repr

/-- Oracle for the browser-side effects of one `processUrl` run: whether
each awaited operation succeeds or throws (with the thrown message), the
serialized page contents, the surface-keyword strings produced by
`extractSurfaceKeywords` (which swallows its own errors and always returns
a string), the consent-selector query outcomes, and the wall-clock
readings taken at the start and at the exit. -/
structure PipelineEnv where
  getBrowserResult : Except (List Char) Unit
  newPageResult : Except (List Char) Unit
  interceptionErr : Option (List Char)
  userAgentErr : Option (List Char)
  viewportErr : Option (List Char)
  gotoErr : Option (List Char)
  settleErr : Option (List Char)
  content1 : Except (List Char) (List Char)
  surface1 : List Char
  consentXpath : List QRes
  consentCss : List QRes
  settle2Err : Option (List Char)
  content2 : Except (List Char) (List Char)
  surface2 : List Char
  t0 : Int
  t1 : Int
deriving Repr

/-- A failure result of `processUrl`: empty keyword fields, `success =
false`, the captured error text, and the elapsed time. -/
def failureResult (e : List Char) (dt : Int) : ExtractionResult :=
  { scraped_keywords := [], surface_keywords := [], success := false,
    error := e, processing_time_ms := dt }

/-- The body of `processUrl` after the page has been opened: setup steps,
navigation (whose try/catch also covers the 2-second settle wait and
returns a `Timeout:`-prefixed failure), Strategy A and Strategy B, and the
consent retry taken exactly when both strategies returned empty strings.
Unexpected errors fall to the outer catch as failure results. -/
def processUrlBody (env : PipelineEnv) : ExtractionResult × List Action :=
  let dt := env.t1 - env.t0
  match env.interceptionErr with
  | some e => (failureResult e dt, [])
  | none =>
  match env.userAgentErr with
  | some e => (failureResult e dt, [])
  | none =>
  match env.viewportErr with
  | some e => (failureResult e dt, [])
  | none =>
  match env.gotoErr with
  | some m => (failureResult (("Timeout: ").toList ++ m) dt, [Action.goto])
  | none =>
  match env.settleErr with
  | some m => (failureResult (("Timeout: ").toList ++ m) dt, [Action.goto])
  | none =>
  match env.content1 with
  | Except.error e => (failureResult e dt, [Action.goto])
  | Except.ok html1 =>
    let scrapedKeywords := extractKeywordsFromHtml html1
    let surfaceKeywords := env.surface1
    let tr1 := [Action.goto, Action.extractHtml, Action.extractSurface]
    if scrapedKeywords.isEmpty && surfaceKeywords.isEmpty then
      let consent := acceptCookies env.consentXpath env.consentCss
      let tr2 := tr1 ++ Action.consentScan :: consent.2
      match env.settle2Err with
      | some e => (failureResult e dt, tr2)
      | none =>
      match env.content2 with
      | Except.error e => (failureResult e dt, tr2)
      | Except.ok html2 =>
        ({ scraped_keywords := extractKeywordsFromHtml html2,
           surface_keywords := env.surface2,
           success := true, error := [], processing_time_ms := dt },
         tr2 ++ [Action.extractHtml, Action.extractSurface])
    else
      ({ scraped_keywords := scrapedKeywords, surface_keywords := surfaceKeywords,
         success := true, error := [], processing_time_ms := dt }, tr1)

/-- `processUrl(url)`: acquire a browser, open a page, run the body, and in
the `finally` block close the page (when one was opened) and hand the
browser back through `returnBrowser` (when one was acquired). -/
def processUrl (env : PipelineEnv) : ExtractionResult × List Action :=
  let dt := env.t1 - env.t0
  match env.getBrowserResult with
  | Except.error e => (failureResult e dt, [])
  | Except.ok _ =>
  match env.newPageResult with
  | Except.error e => (failureResult e dt, [Action.releaseBrowser])
  | Except.ok _ =>
    let r := processUrlBody env
    (r.1, r.2 ++ [Action.pageClose, Action.releaseBrowser])

/-! ## Server (server.js: queue guard, p-limit scheduling) -/

def MAX_QUEUED : Nat := 10
def LIMIT_CONCURRENCY : Nat := 3

/-- Server counters and the p-limit internal state: `queuedRequests` and
`activeRequests` are the module-level counters of server.js;
`limitActiveCount` and `limitQueueSize` are the limiter's active count and
pending-function queue length. -/
structure SrvState where
  queuedRequests : Nat
  activeRequests : Nat
  limitActiveCount : Nat
  limitQueueSize : Nat
deriving DecidableEq, Repr

inductive SubmitOutcome
  | busy
  | invalidUrl
  | started
  | queuedInLimiter
deriving DecidableEq, Repr

/-- The synchronous part of one `POST /extract` handler invocation (no
`await` separates these statements, so the segment is atomic on the event
loop): reject with 503 when `queuedRequests >= MAX_QUEUED`; otherwise
increment `queuedRequests`, validate, and on the reject paths decrement it
back; on acceptance decrement it, increment `activeRequests`, and hand the
job to the limiter, which runs it at once below its concurrency or parks
it in its queue. -/
def submitStep (s : SrvState) (valid : Bool) : SrvState × SubmitOutcome :=
  if MAX_QUEUED ≤ s.queuedRequests then (s, SubmitOutcome.busy)
  else if !valid then (s, SubmitOutcome.invalidUrl)
  else
    let s1 := { s with activeRequests := s.activeRequests + 1 }
    if s1.limitActiveCount < LIMIT_CONCURRENCY then
      ({ s1 with limitActiveCount := s1.limitActiveCount + 1 }, SubmitOutcome.started)
    else
      ({ s1 with limitQueueSize := s1.limitQueueSize + 1 }, SubmitOutcome.queuedInLimiter)

/-- Completion of one running pipeline execution: the limiter decrements
its active count and immediately starts a queued function when one is
pending, and the awaiting handler decrements `activeRequests`. -/
def completeStep (s : SrvState) : SrvState :=
  if s.limitActiveCount = 0 then s
  else if 0 < s.limitQueueSize then
    { s with activeRequests := s.activeRequests - 1,
             limitActiveCount := s.limitActiveCount - 1 + 1,
             limitQueueSize := s.limitQueueSize - 1 }
  else
    { s with activeRequests := s.activeRequests - 1,
             limitActiveCount := s.limitActiveCount - 1 }

inductive SrvEvent
  | submit (valid : Bool)
  | complete
deriving DecidableEq, Repr

def srvStep (s : SrvState) : SrvEvent → SrvState
  | SrvEvent.submit v => (submitStep s v).1
  | SrvEvent.complete => completeStep s

/-- Run a sequence of event-loop events from the server's initial state
(all counters zero). -/
def runServer (evs : List SrvEvent) : SrvState :=
  evs.foldl srvStep { queuedRequests := 0, activeRequests := 0,
                      limitActiveCount := 0, limitQueueSize := 0 }

/-! ## Lemmas about the first-occurrence search -/

/-- `idxOf?` returns exactly the first index at which the needle matches. -/
theorem idxOf?_eq_some_of_first (needle : List Char) :
    ∀ (s : List Char) (i : Nat), isMatchAt needle s i = true →
      (∀ j, j < i → isMatchAt needle s j = false) →
      idxOf? needle s = some i := by
  intro s
  induction s with
  | nil =>
    intro i hi hj
    have hn : needle = [] := by
      cases needle with
      | nil => rfl
      | cons a as => simp [isMatchAt, List.isPrefixOf] at hi
    subst hn
    cases i with
    | zero => rfl
    | succ k =>
      have h0 := hj 0 (Nat.succ_pos k)
      simp [isMatchAt, List.isPrefixOf] at h0
  | cons c rest ih =>
    intro i hi hj
    cases i with
    | zero =>
      have hpr : needle.isPrefixOf (c :: rest) = true := by
        simpa [isMatchAt] using hi
      simp [idxOf?, hpr]
    | succ k =>
      have h0 : needle.isPrefixOf (c :: rest) = false := by
        have := hj 0 (Nat.succ_pos k)
        simpa [isMatchAt] using this
      have hi2 : isMatchAt needle rest k = true := by
        simpa [isMatchAt] using hi
      have hj2 : ∀ j, j < k → isMatchAt needle rest j = false := by
        intro j hjk
        have := hj (j + 1) (Nat.succ_lt_succ hjk)
        simpa [isMatchAt] using this
      simp [idxOf?, h0, ih k hi2 hj2]

/-- Claim C10: for every delimiter pair, `extractKeywordsFromHtml` examines
only the first occurrence of the start delimiter: writing the input as
`pre ++ start ++ mid` where no occurrence of the start delimiter begins
inside `pre`, the pair's outcome is exactly `firstSeg` of `mid` — the
computation on the text after the first occurrence — so when that fails
(no end delimiter, or content trimming to empty) the pair yields `none`
and the scan moves to the next pair, never consulting later occurrences
of the start delimiter inside `mid`. -/
theorem c10_only_first_occurrence (p : List Char × List Char) (pre mid : List Char)
    (_hp : p ∈ delimiters)
    (hfirst : ∀ j, j < pre.length → isMatchAt p.1 (pre ++ (p.1 ++ mid)) j = false) :
    matchPair p (pre ++ (p.1 ++ mid)) = firstSeg p.2 mid := by
  have hAt : isMatchAt p.1 (pre ++ (p.1 ++ mid)) pre.length = true := by
    simp [isMatchAt, List.drop_left, List.isPrefixOf_iff_prefix]
  have hIdx : idxOf? p.1 (pre ++ (p.1 ++ mid)) = some pre.length :=
    idxOf?_eq_some_of_first p.1 _ pre.length hAt hfirst
  have hDrop : (pre ++ (p.1 ++ mid)).drop (pre.length + p.1.length) = mid := by
    rw [← List.drop_drop, List.drop_left, List.drop_left]
  have hInc : jsIncludes p.1 (pre ++ (p.1 ++ mid)) = true := by
    simp [jsIncludes, hIdx]
  cases hm : idxOf? p.2 mid with
  | none => simp [matchPair, firstSeg, hInc, hIdx, hDrop, hm]
  | some j => simp [matchPair, firstSeg, hInc, hIdx, hDrop, hm]

/-- Witness for C10: in `"xterms= &terms=abc&"` the first occurrence of
`terms=` is followed by content that trims to empty, so the `terms=` pair
fails and the whole extraction returns the empty string, although the
second occurrence `terms=abc&` alone would yield `"abc"`. -/
theorem c10_witness :
    matchPair ((("terms=").toList, ("&").toList))
        ((("x").toList ++ ((("terms=").toList) ++ ((" &terms=abc&").toList)))) =
      firstSeg (("&").toList) ((" &terms=abc&").toList)
    ∧ firstSeg (("&").toList) ((" &terms=abc&").toList) = none
    ∧ extractKeywordsFromHtml (("xterms= &terms=abc&").toList) = []
    ∧ matchPair ((("terms=").toList, ("&").toList)) (("terms=abc&").toList) =
        some (("abc").toList) := by
  refine ⟨c10_only_first_occurrence ((("terms=").toList, ("&").toList))
      (("x").toList) ((" &terms=abc&").toList) (by decide) (by decide),
    by decide, by decide, by decide⟩

/-- A delimiter pair whose start delimiter does not occur yields no match. -/
theorem matchPair_none_of_not_includes (p : List Char × List Char) (s : List Char)
    (h : jsIncludes p.1 s = false) : matchPair p s = none := by
  simp [matchPair, h]

/-- Claim C8: `extractKeywordsFromHtml` is a pure function of its input
string (identical input yields identical output); an input in which none
of the five start delimiters occurs yields the empty string; and an input
on which both the entity-escaped `terms` pair and the plain `terms=` pair
produce matches yields the entity-escaped match, by priority order. -/
theorem c8_pure_and_priority :
    (∀ s t : List Char, s = t → extractKeywordsFromHtml s = extractKeywordsFromHtml t)
    ∧ (∀ s : List Char, (∀ p, p ∈ delimiters → jsIncludes p.1 s = false) →
        extractKeywordsFromHtml s = [])
    ∧ (∀ s k k2 : List Char,
        matchPair ((("&quot;terms&quot;:&quot;").toList, ("&quot;,").toList)) s = some k →
        matchPair ((("terms=").toList, ("&").toList)) s = some k2 →
        extractKeywordsFromHtml s = k) := by
  refine ⟨fun s t h => by rw [h], ?_, ?_⟩
  · intro s h
    by_cases hs : s = []
    · simp [extractKeywordsFromHtml, hs]
    · have e1 : matchPair ((("&quot;terms&quot;:&quot;").toList, ("&quot;,").toList)) s = none :=
        matchPair_none_of_not_includes _ s (h _ (by decide))
      have e2 : matchPair ((("\"terms\":\"").toList, ("\",").toList)) s = none :=
        matchPair_none_of_not_includes _ s (h _ (by decide))
      have e3 : matchPair ((("terms=").toList, ("&").toList)) s = none :=
        matchPair_none_of_not_includes _ s (h _ (by decide))
      have e4 : matchPair ((("\"keyWords\":\"").toList, ("\",").toList)) s = none :=
        matchPair_none_of_not_includes _ s (h _ (by decide))
      have e5 : matchPair ((("\"keywords\":\"").toList, ("\",").toList)) s = none :=
        matchPair_none_of_not_includes _ s (h _ (by decide))
      simp only [extractKeywordsFromHtml, if_neg hs, delimiters, firstHit]
      rw [e1, e2, e3, e4, e5]
  · intro s k k2 hk hk2
    by_cases hs : s = []
    · rw [hs] at hk
      have hnone : matchPair ((("&quot;terms&quot;:&quot;").toList, ("&quot;,").toList))
          ([] : List Char) = none := by decide
      rw [hnone] at hk
      exact Option.noConfusion hk
    · simp only [extractKeywordsFromHtml, if_neg hs, delimiters, firstHit]
      rw [hk]

/-- Witness for C8: an input with no delimiter pattern yields the empty
string, and an input carrying both an entity-escaped `terms` match (`W1`)
and a plain `terms=` match (`W2`) yields the entity-escaped `W1`. -/
theorem c8_witness :
    extractKeywordsFromHtml (("no patterns here").toList) = []
    ∧ extractKeywordsFromHtml (("&quot;terms&quot;:&quot;W1&quot;,terms=W2&").toList) =
        ("W1").toList := by
  exact ⟨c8_pure_and_priority.2.1 _ (by decide),
    c8_pure_and_priority.2.2 _ _ (("W2").toList) (by decide) (by decide)⟩

/-! ## Browser pool claims -/

/-- Claim C4 (code bug): when `getBrowser` pops a pooled session whose
health check fails, the session is indeed discarded without being returned
to the free-list, but `activeBrowsers` is NOT decremented at the discard:
from a pool owning one dead pooled session with counter 1, the step
creates a replacement and leaves the counter at 2 although only one live
session exists; at capacity (counter 3, one dead pooled session) the dead
session is discarded, the counter stays 3 although the pool owns no live
session, and the caller is told to keep waiting. -/
theorem c4_dead_discard_keeps_counter :
    getBrowserStep { browserPool := [{ alive := false }], activeBrowsers := 1 } =
      ({ browserPool := [], activeBrowsers := 2 }, AcqResult.createdNew)
    ∧ getBrowserStep { browserPool := [{ alive := false }], activeBrowsers := 3 } =
      ({ browserPool := [], activeBrowsers := 3 }, AcqResult.mustWait) :=
  ⟨rfl, rfl⟩

/-- The retry tail of `getBrowser` succeeds at the first available attempt
within the fuel bound, having slept exactly 1000 ms before each retry. -/
theorem getBrowserLoop_finds (avail : Nat → Bool) :
    ∀ (T t : Nat), avail (t + T) = true →
      ∃ a ws, getBrowserLoop avail (T + 1) t = some (t + a, ws)
        ∧ a ≤ T ∧ ws = List.replicate a 1000 := by
  intro T
  induction T with
  | zero =>
    intro t h
    have h0 : avail t = true := by simpa using h
    exact ⟨0, [], by simp [getBrowserLoop, h0], Nat.le_refl 0, rfl⟩
  | succ T ih =>
    intro t h
    by_cases ha : avail t = true
    · exact ⟨0, [], by simp [getBrowserLoop, ha], Nat.zero_le _, rfl⟩
    · have hf : avail t = false := by
        cases hav : avail t with
        | true => exact absurd hav ha
        | false => rfl
      have h2 : avail ((t + 1) + T) = true := by
        have he : (t + 1) + T = t + (T + 1) := by omega
        rw [he]
        exact h
      obtain ⟨a, ws, hloop, hle, hws⟩ := ih (t + 1) h2
      refine ⟨a + 1, 1000 :: ws, ?_, by omega, by simp [hws, List.replicate_succ]⟩
      have hgoal : getBrowserLoop avail (T + 1 + 1) t =
          (getBrowserLoop avail (T + 1) (t + 1)).map (fun r => (r.1, 1000 :: r.2)) := by
        simp [getBrowserLoop, hf]
      rw [hgoal, hloop]
      have harith : t + 1 + a = t + (a + 1) := by omega
      simp [harith]

/-- Claim C9: when the pool cannot hand out a session, `getBrowser` waits
with a fixed 1000 ms backoff between poll attempts; under the precondition
that at some attempt `T` the pool state would yield a session (a live
pooled session or spare capacity, so `getBrowserStep` does not answer
`mustWait`), the poll loop terminates within `T` retries and the sleeps
performed are exactly one 1000 ms interval per failed attempt. -/
theorem c9_poll_terminates_bounded (states : Nat → PoolState) (T : Nat)
    (h : (getBrowserStep (states T)).2 ≠ AcqResult.mustWait) :
    ∃ a ws,
      getBrowserLoop (fun t => decide ((getBrowserStep (states t)).2 ≠ AcqResult.mustWait))
        (T + 1) 0 = some (a, ws)
      ∧ a ≤ T ∧ ws = List.replicate a 1000 := by
  have h0 : (fun t => decide ((getBrowserStep (states t)).2 ≠ AcqResult.mustWait)) (0 + T)
      = true := by
    simp only [Nat.zero_add]
    simpa using h
  obtain ⟨a, ws, hl, hle, hws⟩ :=
    getBrowserLoop_finds (fun t => decide ((getBrowserStep (states t)).2 ≠ AcqResult.mustWait))
      T 0 h0
  exact ⟨a, ws, by simpa using hl, hle, hws⟩

/-- Witness for C9: with an empty pool and a zero counter, the very first
poll attempt succeeds with no sleeps. -/
theorem c9_witness :
    ∃ a ws,
      getBrowserLoop
        (fun t => decide
          ((getBrowserStep ((fun _ => { browserPool := [], activeBrowsers := 0 }) t)).2
            ≠ AcqResult.mustWait))
        (0 + 1) 0 = some (a, ws)
      ∧ a ≤ 0 ∧ ws = List.replicate a 1000 :=
  c9_poll_terminates_bounded (fun _ => { browserPool := [], activeBrowsers := 0 }) 0 (by decide)

/-! ## Scheduler claims -/

/-- The limiter invariant: the active count never exceeds the concurrency
bound, and functions wait in the limiter queue only while every slot is
taken. -/
def limiterInv (s : SrvState) : Prop :=
  s.limitActiveCount ≤ LIMIT_CONCURRENCY
  ∧ (0 < s.limitQueueSize → s.limitActiveCount = LIMIT_CONCURRENCY)

theorem limiterInv_init :
    limiterInv { queuedRequests := 0, activeRequests := 0,
                 limitActiveCount := 0, limitQueueSize := 0 } := by
  constructor <;> simp [LIMIT_CONCURRENCY]

theorem limiterInv_step (s : SrvState) (e : SrvEvent) (h : limiterInv s) :
    limiterInv (srvStep s e) := by
  obtain ⟨h1, h2⟩ := h
  have h3 : s.limitQueueSize = 0 ∨ s.limitActiveCount = LIMIT_CONCURRENCY := by
    rcases Nat.eq_zero_or_pos s.limitQueueSize with hq | hq
    · exact Or.inl hq
    · exact Or.inr (h2 hq)
  simp only [LIMIT_CONCURRENCY] at h1 h3 ⊢
  rcases h3 with h3 | h3
  all_goals cases e with
  | submit v =>
    by_cases hb : MAX_QUEUED ≤ s.queuedRequests
    · simp only [srvStep, submitStep, if_pos hb]
      exact ⟨h1, h2⟩
    · by_cases hv : v = true
      · by_cases hc : s.limitActiveCount < 3
        · simp [srvStep, submitStep, hb, hv, hc, limiterInv, LIMIT_CONCURRENCY]
          omega
        · simp [srvStep, submitStep, hb, hv, hc, limiterInv, LIMIT_CONCURRENCY]
          omega
      · simp [srvStep, submitStep, hb, hv, limiterInv, LIMIT_CONCURRENCY]
        omega
  | complete =>
    by_cases hz : s.limitActiveCount = 0
    · simp [srvStep, completeStep, hz, limiterInv, LIMIT_CONCURRENCY]
      omega
    · by_cases hq : 0 < s.limitQueueSize
      · simp [srvStep, completeStep, hz, hq, limiterInv, LIMIT_CONCURRENCY]
        omega
      · simp [srvStep, completeStep, hz, hq, limiterInv, LIMIT_CONCURRENCY]
        omega

/-- The limiter invariant holds after any event sequence from the initial
server state. -/
theorem limiterInv_runServer (evs : List SrvEvent) : limiterInv (runServer evs) := by
  suffices hgen : ∀ (st : SrvState), limiterInv st → limiterInv (evs.foldl srvStep st) from
    hgen _ limiterInv_init
  induction evs with
  | nil => exact fun st hst => hst
  | cons e rest ih => exact fun st hst => ih _ (limiterInv_step st e hst)

/-- Claim C2 (amended): under any submission burst, at most
`LIMIT_CONCURRENCY` = 3 pipeline executions run concurrently — the
limiter's active count never exceeds 3 — and accepted submissions beyond
the bound wait in the limiter queue, which is non-empty only while all 3
slots are taken.  The original claim's further assertion that the
*reported* running counter never exceeds 3 is refuted by
`c2_counterexample`. -/
theorem c2_limiter_never_exceeds_three (evs : List SrvEvent) :
    (runServer evs).limitActiveCount ≤ LIMIT_CONCURRENCY
    ∧ (0 < (runServer evs).limitQueueSize →
        (runServer evs).limitActiveCount = LIMIT_CONCURRENCY) :=
  limiterInv_runServer evs

/-- Counterexample to Claim C2 as stated: after a burst of four valid
submissions (before any completion), four jobs are reported running —
`activeRequests`, the counter served by the introspection endpoints, is
incremented before the limiter grants a slot — although the limiter
executes only three. -/
theorem c2_counterexample :
    LIMIT_CONCURRENCY <
      (runServer (List.replicate 4 (SrvEvent.submit true))).activeRequests
    ∧ (runServer (List.replicate 4 (SrvEvent.submit true))).limitActiveCount = 3
    ∧ (runServer (List.replicate 4 (SrvEvent.submit true))).limitQueueSize = 1 :=
  ⟨by decide, by decide, by decide⟩

/-- Witness for C2: at the four-submission burst the limiter bound holds
with equality and the queue is non-empty. -/
theorem c2_witness :
    (runServer (List.replicate 4 (SrvEvent.submit true))).limitActiveCount ≤ LIMIT_CONCURRENCY
    ∧ (runServer (List.replicate 4 (SrvEvent.submit true))).limitActiveCount =
        LIMIT_CONCURRENCY :=
  ⟨(c2_limiter_never_exceeds_three (List.replicate 4 (SrvEvent.submit true))).1,
   (c2_limiter_never_exceeds_three (List.replicate 4 (SrvEvent.submit true))).2 (by decide)⟩

/-- No event-loop step changes `queuedRequests`: the handler increments
and decrements it inside one synchronous segment, so its net effect on
every atomic step is zero. -/
theorem srvStep_queued (s : SrvState) (e : SrvEvent) :
    (srvStep s e).queuedRequests = s.queuedRequests := by
  cases e with
  | submit v =>
    simp only [srvStep, submitStep]
    repeat' split
    all_goals rfl
  | complete =>
    simp only [srvStep, completeStep]
    repeat' split
    all_goals rfl

/-- In every reachable server state `queuedRequests` reads zero. -/
theorem runServer_queued_zero (evs : List SrvEvent) :
    (runServer evs).queuedRequests = 0 := by
  suffices hgen : ∀ st : SrvState,
      (evs.foldl srvStep st).queuedRequests = st.queuedRequests from hgen _
  induction evs with
  | nil => exact fun st => rfl
  | cons e rest ih => exact fun st => (ih (srvStep st e)).trans (srvStep_queued st e)

/-- Claim C3 (code bug): the busy rejection is supposed to fire exactly
when the queued-but-not-yet-running jobs have reached `MAX_QUEUED` = 10,
but the guard reads `queuedRequests`, which is zero in every reachable
state — the handler increments and decrements it within one synchronous
segment — while jobs that actually wait for a slot sit in the limiter
queue.  After a burst of 14 valid submissions the limiter queue holds 11
waiting jobs, at or beyond the bound, yet the next valid submission is
still accepted into the limiter queue instead of being answered busy: the
bound is never enforced. -/
theorem c3_queue_bound_never_enforced :
    (∀ evs : List SrvEvent, (runServer evs).queuedRequests = 0)
    ∧ MAX_QUEUED ≤ (runServer (List.replicate 14 (SrvEvent.submit true))).limitQueueSize
    ∧ (submitStep (runServer (List.replicate 14 (SrvEvent.submit true))) true).2 =
        SubmitOutcome.queuedInLimiter :=
  ⟨runServer_queued_zero, by decide, by decide⟩

/-! ## Pipeline claims -/

/-- Every exit of `processUrl` stamps the elapsed time `t1 - t0` into the
result record. -/
theorem processUrl_time (env : PipelineEnv) :
    (processUrl env).1.processing_time_ms = env.t1 - env.t0 := by
  simp only [processUrl, processUrlBody]
  repeat' split
  all_goals rfl

/-- Every failure exit of `processUrl` carries empty keyword fields. -/
theorem processUrl_failure_fields (env : PipelineEnv) :
    (processUrl env).1.success = false →
      (processUrl env).1.scraped_keywords = [] ∧ (processUrl env).1.surface_keywords = [] := by
  simp only [processUrl, processUrlBody]
  repeat' split
  all_goals simp [failureResult]

/-- Claim C1: every terminated `processUrl` run returns a record in which
`success = false` implies that both keyword fields are the empty string,
and `processing_time_ms` is populated and non-negative on every outcome
(given that the wall clock did not run backwards between the start and the
exit reading). -/
theorem c1_failure_empty_and_time_nonneg (env : PipelineEnv) (h : env.t0 ≤ env.t1) :
    ((processUrl env).1.success = false →
      (processUrl env).1.scraped_keywords = [] ∧ (processUrl env).1.surface_keywords = [])
    ∧ 0 ≤ (processUrl env).1.processing_time_ms :=
  ⟨processUrl_failure_fields env, by rw [processUrl_time env]; omega⟩

/-- A pipeline oracle for a run whose navigation times out. -/
def envNavTimeout : PipelineEnv :=
  { getBrowserResult := Except.ok (), newPageResult := Except.ok (),
    interceptionErr := none, userAgentErr := none, viewportErr := none,
    gotoErr := some (("Navigation timeout of 15000 ms exceeded").toList),
    settleErr := none,
    content1 := Except.ok [], surface1 := [], consentXpath := [], consentCss := [],
    settle2Err := none, content2 := Except.ok [], surface2 := [],
    t0 := 5, t1 := 20 }

/-- Witness for C1 at the navigation-timeout oracle. -/
theorem c1_witness :
    envNavTimeout.t0 ≤ envNavTimeout.t1
    ∧ (((processUrl envNavTimeout).1.success = false →
        (processUrl envNavTimeout).1.scraped_keywords = []
        ∧ (processUrl envNavTimeout).1.surface_keywords = [])
      ∧ 0 ≤ (processUrl envNavTimeout).1.processing_time_ms) :=
  ⟨by decide, c1_failure_empty_and_time_nonneg envNavTimeout (by decide)⟩

/-- The consent scan clicks either the first found element or nothing. -/
theorem acceptCookies_trace (x c : List QRes) :
    (acceptCookies x c).2 = [Action.click] ∨ (acceptCookies x c).2 = [] := by
  simp only [acceptCookies]
  split
  · exact Or.inl rfl
  split
  · exact Or.inl rfl
  · exact Or.inr rfl

/-- The body of `processUrl` never emits the finalizer actions itself. -/
theorem processUrlBody_finalizer_free (env : PipelineEnv) :
    (processUrlBody env).2.count Action.pageClose = 0
    ∧ (processUrlBody env).2.count Action.releaseBrowser = 0 := by
  rcases acceptCookies_trace env.consentXpath env.consentCss with hc | hc
  · simp only [processUrlBody]
    repeat' split
    all_goals simp [hc, List.count_append, List.count_cons, List.count_nil]
  · simp only [processUrlBody]
    repeat' split
    all_goals simp [hc, List.count_append, List.count_cons, List.count_nil]

/-- Claim C5: on every exit path of a `processUrl` run that acquired a
browser and opened a page — normal completion, navigation failure, or an
unexpected error at any later step — the trace contains exactly one page
close and exactly one release of the borrowed session back to the pool. -/
theorem c5_close_and_release_once (env : PipelineEnv)
    (hb : env.getBrowserResult = Except.ok ()) (hp : env.newPageResult = Except.ok ()) :
    (processUrl env).2.count Action.pageClose = 1
    ∧ (processUrl env).2.count Action.releaseBrowser = 1 := by
  have hbody := processUrlBody_finalizer_free env
  simp [processUrl, hb, hp, List.count_append, hbody.1, hbody.2]

/-- A pipeline oracle for a successful run that finds nothing on the first
pass, clicks a consent element, and succeeds on the retry. -/
def envConsentRetry : PipelineEnv :=
  { getBrowserResult := Except.ok (), newPageResult := Except.ok (),
    interceptionErr := none, userAgentErr := none, viewportErr := none,
    gotoErr := none, settleErr := none,
    content1 := Except.ok (("nothing here").toList), surface1 := [],
    consentXpath := [QRes.err, QRes.found], consentCss := [],
    settle2Err := none, content2 := Except.ok (("terms=found&").toList),
    surface2 := ("k1, k2").toList,
    t0 := 0, t1 := 1500 }

/-- Witness for C5 at the consent-retry oracle. -/
theorem c5_witness :
    (processUrl envConsentRetry).2.count Action.pageClose = 1
    ∧ (processUrl envConsentRetry).2.count Action.releaseBrowser = 1 :=
  c5_close_and_release_once envConsentRetry rfl rfl

/-- Claim C6: when navigation fails (timeout or error), `processUrl`
returns immediately with `success = false`, an error string prefixed
`Timeout: `, both keyword fields empty, and the elapsed time; the trace
holds no extraction action and no consent scan — only the navigation
attempt and the finalizer. -/
theorem c6_nav_failure_terminal (env : PipelineEnv) (m : List Char)
    (hb : env.getBrowserResult = Except.ok ()) (hp : env.newPageResult = Except.ok ())
    (hi : env.interceptionErr = none) (hu : env.userAgentErr = none)
    (hv : env.viewportErr = none) (hg : env.gotoErr = some m) :
    processUrl env =
      ({ scraped_keywords := [], surface_keywords := [], success := false,
         error := ("Timeout: ").toList ++ m, processing_time_ms := env.t1 - env.t0 },
       [Action.goto, Action.pageClose, Action.releaseBrowser]) := by
  simp [processUrl, processUrlBody, failureResult, hb, hp, hi, hu, hv, hg]

/-- Witness for C6 at the navigation-timeout oracle. -/
theorem c6_witness :
    processUrl envNavTimeout =
      ({ scraped_keywords := [], surface_keywords := [], success := false,
         error := ("Timeout: ").toList ++ (("Navigation timeout of 15000 ms exceeded").toList),
         processing_time_ms := 15 },
       [Action.goto, Action.pageClose, Action.releaseBrowser]) := by
  rw [c6_nav_failure_terminal envNavTimeout
    (("Navigation timeout of 15000 ms exceeded").toList) rfl rfl rfl rfl rfl rfl]
  decide

/-- Claim C7: on a run that navigates successfully and serializes both
page snapshots, the consent-dismiss retry happens exactly when both
Strategy A and Strategy B returned empty strings on the first pass — never
when only one is empty — and in that case the consent scan (clicking at
most the single first-found element) is followed by exactly one further
run of both strategies; otherwise no consent scan and no further run
occur, so no second fallback attempt is ever made. -/
theorem c7_consent_retry_trigger (env : PipelineEnv) (h1 h2 : List Char)
    (hb : env.getBrowserResult = Except.ok ()) (hp : env.newPageResult = Except.ok ())
    (hi : env.interceptionErr = none) (hu : env.userAgentErr = none)
    (hv : env.viewportErr = none) (hg : env.gotoErr = none) (hs : env.settleErr = none)
    (hc : env.content1 = Except.ok h1) (hs2 : env.settle2Err = none)
    (hc2 : env.content2 = Except.ok h2) :
    ((processUrl env).2 =
      if (extractKeywordsFromHtml h1).isEmpty && env.surface1.isEmpty then
        [Action.goto, Action.extractHtml, Action.extractSurface, Action.consentScan]
          ++ (acceptCookies env.consentXpath env.consentCss).2
          ++ [Action.extractHtml, Action.extractSurface, Action.pageClose,
              Action.releaseBrowser]
      else
        [Action.goto, Action.extractHtml, Action.extractSurface, Action.pageClose,
          Action.releaseBrowser])
    ∧ (acceptCookies env.consentXpath env.consentCss).2.count Action.click ≤ 1 := by
  constructor
  · by_cases hemp : ((extractKeywordsFromHtml h1).isEmpty && env.surface1.isEmpty) = true
    · simp [processUrl, processUrlBody, hb, hp, hi, hu, hv, hg, hs, hc, hs2, hc2, hemp]
    · simp [processUrl, processUrlBody, hb, hp, hi, hu, hv, hg, hs, hc, hs2, hc2, hemp]
  · rcases acceptCookies_trace env.consentXpath env.consentCss with hct | hct <;> simp [hct]

/-- Witness for C7 at the consent-retry oracle: both first-pass strategies
are empty, the consent element is clicked once, and both strategies run
exactly once more. -/
theorem c7_witness :
    (processUrl envConsentRetry).2 =
      [Action.goto, Action.extractHtml, Action.extractSurface, Action.consentScan, Action.click,
       Action.extractHtml, Action.extractSurface, Action.pageClose, Action.releaseBrowser]
    ∧ (acceptCookies envConsentRetry.consentXpath envConsentRetry.consentCss).2.count
        Action.click ≤ 1 := by
  have h := c7_consent_retry_trigger envConsentRetry (("nothing here").toList)
    (("terms=found&").toList) rfl rfl rfl rfl rfl rfl rfl rfl rfl rfl
  exact ⟨by rw [h.1]; decide, h.2⟩

end KeywordScraper
